import Mathlib

/-!
Shallow embedding of the password-reset / credential-lifecycle subsystem of
the repository (FastAPI backend, `src/auth/service.py` and
`src/auth/router.py`), together with theorems settling the frozen claims.

Modelling conventions:
* Machine time is an explicit `Int` parameter (`now`, Unix seconds); the
  source obtains it from `utils.get_utc_now()`.
* UUID primary keys are modelled as `Nat`.
* bcrypt hashing (`passlib`) is modelled as a deterministic injective
  tagging `"bcrypt|" ++ password`; `verify_password p h` checks that `h`
  is the tag of `p`.  The salt plays no role in any claim.
* SHA-256 (`hashlib.sha256(...).hexdigest()`) is modelled as the
  deterministic injective tagging `"sha256|" ++ s`.  Only determinism of
  the digest is used by the source logic.
* A JWT is either a payload signed with the server key or a malformed
  string; `jwtDecode` models `jose.jwt.decode`, which raises
  `ExpiredSignatureError` when the `exp` claim is in the past and
  `JWTError` on any malformed/badly-signed input.
* The `UsedToken` ORM model is not present in the snapshot's
  `models.py`; its columns `(token_hash, token_type, user_id, used_at)`
  are taken from its uses in `service.py`, `router.py` and the tests,
  matching the spec's data-model section.
-/

namespace GardenAuth

/-- Embeds `src/auth/models.py` — the `users` table. -/
structure User where
  id : Nat
  email : String
  username : String
  hashed_password : String
  full_name : Option String := none
  is_active : Bool := true
  is_superuser : Bool := false
  reset_attempts : Nat := 0
  last_reset_attempt : Option Int := none
  reset_lockout_until : Option Int := none
deriving Repr, DecidableEq

/-- Embeds `src/auth/models.py` — the `password_history` table. -/
structure PasswordHistoryRow where
  user_id : Nat
  hashed_password : String
  created_at : Int
deriving Repr, DecidableEq

/-- The `used_tokens` table: `(token_hash, token_type, user_id, used_at)`,
reconstructed from its uses in `service.py`/`router.py`/tests (the ORM
class itself is absent from the snapshot's `models.py`). -/
structure UsedTokenRow where
  token_hash : String
  token_type : String
  user_id : Nat
  used_at : Int
deriving Repr, DecidableEq

/-- The relational state the auth subsystem touches. -/
structure AuthDB where
  users : List User
  password_history : List PasswordHistoryRow
  used_tokens : List UsedTokenRow
deriving Repr, DecidableEq

/-- JWT claims used by the source: `sub`, `type`, `exp`, `iat`. -/
structure TokenPayload where
  sub : Option String := none
  type : Option String := none
  exp : Option Int := none
  iat : Option Int := none
deriving Repr, DecidableEq

/-- A token string: either a JWT signed with the server's secret key
(its payload determines the string), or any other (malformed) string. -/
inductive Token where
  | signed (payload : TokenPayload)
  | malformed (raw : String)
deriving Repr, DecidableEq

/-- Errors raised by `jose.jwt.decode`. -/
inductive JwtError where
  | expired
  | invalid
deriving Repr, DecidableEq

/-- Embeds `jose.jwt.decode(token, SECRET_KEY, ...)`: signature check, then the
`exp` claim (when present) is rejected once it lies in the past. -/
def jwtDecode (t : Token) (now : Int) : Except JwtError TokenPayload :=
  match t with
  | .malformed _ => .error .invalid
  | .signed p =>
    match p.exp with
    | some e => if e < now then .error .expired else .ok p
    | none => .ok p

/-- Injective rendering of an optional claim, used to give each signed
payload a distinct token string. -/
def optStr : Option String → String
  | none => "none"
  | some s => "some:" ++ toString s.length ++ ":" ++ s

/-- Injective rendering of an optional integer claim. -/
def optInt : Option Int → String
  | none => "none"
  | some i => "some:" ++ toString i

/-- The concrete string a token travels as (a signed JWT is determined by
its payload; malformed inputs are arbitrary strings). -/
def tokenString : Token → String
  | .signed p =>
    "jwt|" ++ optStr p.sub ++ "|" ++ optStr p.type ++ "|" ++ optInt p.exp ++ "|" ++ optInt p.iat
  | .malformed raw => raw

/-- Embeds `hashlib.sha256(s.encode()).hexdigest()`, modelled as a deterministic
injective tagging. -/
def sha256Hex (s : String) : String := "sha256|" ++ s

/-- Embeds `hashlib.sha256(token.encode()).hexdigest()` applied to a token. -/
def tokenHash (t : Token) : String := sha256Hex (tokenString t)

/-- Embeds `service.get_password_hash` (passlib bcrypt), modelled
deterministically. -/
def get_password_hash (password : String) : String := "bcrypt|" ++ password

/-- Embeds `service.verify_password` (passlib bcrypt verify). -/
def verify_password (plain_password hashed_password : String) : Bool :=
  hashed_password == "bcrypt|" ++ plain_password

/-- Embeds `settings.PASSWORD_RESET_TOKEN_EXPIRE_MINUTES` (`src/config.py`). -/
def PASSWORD_RESET_TOKEN_EXPIRE_MINUTES : Int := 1

/-- Embeds `settings.PASSWORD_HISTORY_SIZE` (`src/config.py`). -/
def PASSWORD_HISTORY_SIZE : Nat := 5

/-- Embeds `service.MAX_RESET_ATTEMPTS`. -/
def MAX_RESET_ATTEMPTS : Nat := 4

/-- Embeds `service.BASE_LOCKOUT_MINUTES`. -/
def BASE_LOCKOUT_MINUTES : Nat := 5

/-- Embeds `service.MAX_LOCKOUT_MINUTES`. -/
def MAX_LOCKOUT_MINUTES : Nat := 60

/-- Embeds `service.create_password_reset_token({"sub": username})`: payload
carries `sub`, `type = "password_reset"` and
`exp = now + PASSWORD_RESET_TOKEN_EXPIRE_MINUTES` (no `iat`). -/
def create_password_reset_token (sub : String) (now : Int) : Token :=
  .signed { sub := some sub, type := some "password_reset",
            exp := some (now + PASSWORD_RESET_TOKEN_EXPIRE_MINUTES * 60) }

/-- Embeds `db.query(User).filter(User.email == email).first()`. -/
def findUserByEmail (db : AuthDB) (email : String) : Option User :=
  db.users.find? (fun u => u.email == email)

/-- Embeds `db.query(User).filter(User.username == username).first()`. -/
def findUserByUsername (db : AuthDB) (username : String) : Option User :=
  db.users.find? (fun u => u.username == username)

/-- Committing a mutated ORM row: replace the row with this primary key. -/
def putUser (db : AuthDB) (u : User) : AuthDB :=
  { db with users := db.users.map (fun v => if v.id == u.id then u else v) }

/-- Embeds `service.authenticate_user`. -/
def authenticate_user (db : AuthDB) (email password : String) : Option User :=
  match findUserByEmail db email with
  | none => none
  | some user =>
    if verify_password password user.hashed_password then some user else none

/-- Embeds `db.query(UsedToken).filter(UsedToken.token_hash == h).first()` is
non-empty. -/
def hashInLedger (db : AuthDB) (h : String) : Bool :=
  db.used_tokens.any (fun r => r.token_hash == h)

/-- The exceptions of `src/auth/exceptions.py` that the reset subsystem
raises (`RateLimitException` carries the minutes in its message;
`InvalidTokenException` carries the "already used" message variant in
`_validate_reset_token`). -/
inductive AuthError where
  | rateLimit (minutes : Int)
  | invalidCredentials
  | userNotFound
  | invalidToken (alreadyUsed : Bool)
  | tokenExpired
  | invalidPassword (msg : String)
  | passwordHistory
deriving Repr, DecidableEq

/-- Embeds `service.invalidate_previous_tokens`: insert the synthetic
invalidation marker row. -/
def invalidate_previous_tokens (db : AuthDB) (user_id : Nat) (token_type : String)
    (now : Int) : AuthDB :=
  { db with used_tokens := db.used_tokens ++
      [{ token_hash :=
           "invalidation_" ++ token_type ++ "_" ++ toString user_id ++ "_" ++ toString now,
         token_type := "invalidation_" ++ token_type,
         user_id := user_id, used_at := now }] }

/-- The issue-time estimate of `service.is_token_valid` lines 307-314:
`iat` when present, else `exp - PASSWORD_RESET_TOKEN_EXPIRE_MINUTES*60`
provided `exp` is present and the payload `type` matches; else the token
counts as invalid. -/
def estimatedIat (p : TokenPayload) (token_type : String) : Option Int :=
  match p.iat with
  | some i => some i
  | none =>
    match p.exp with
    | some e =>
      if p.type == some token_type then
        some (e - PASSWORD_RESET_TOKEN_EXPIRE_MINUTES * 60)
      else none
    | none => none

/-- Embeds `service.is_token_valid`: false when the hash is in the ledger; true
for `password_reset` otherwise; for other types, decode the token (any
failure, including expiry, is caught and yields false), estimate the
issue time, and reject when an invalidation marker of this type for this
user postdates it. -/
def is_token_valid (db : AuthDB) (token : Token) (user_id : Nat)
    (token_type : String) (now : Int) : Bool :=
  if hashInLedger db (tokenHash token) then false
  else if token_type == "password_reset" then true
  else
    match jwtDecode token now with
    | .error _ => false
    | .ok p =>
      match estimatedIat p token_type with
      | none => false
      | some est =>
        !(db.used_tokens.any (fun r =>
            r.user_id == user_id &&
            r.token_type == "invalidation_" ++ token_type &&
            decide (est < r.used_at)))

/-- The attempt-counter update of `service._check_reset_rate_limits`
lines 203-220: increment while the last attempt is under one hour old,
otherwise restart at 1. -/
def nextResetAttempts (u : User) (now : Int) : Nat :=
  match u.last_reset_attempt with
  | some last => if now - last < 3600 then u.reset_attempts + 1 else 1
  | none => 1

/-- The progressive lockout of `service._check_reset_rate_limits`
lines 227-230. -/
def lockoutMinutes (attempts : Nat) : Nat :=
  min (BASE_LOCKOUT_MINUTES * 2 ^ (attempts - MAX_RESET_ATTEMPTS - 1))
    MAX_LOCKOUT_MINUTES

/-- Embeds `service._check_reset_rate_limits`: returns the user row as left
after the call together with the raised `RateLimitException`, if any.
While `reset_lockout_until` is in the future the function raises before
touching any counter; otherwise it updates the counters (committing)
and raises when the new count exceeds `MAX_RESET_ATTEMPTS`, with
`reset_lockout_until` pushed `lockoutMinutes` into the future. -/
def _check_reset_rate_limits (u : User) (now : Int) : User × Option AuthError :=
  match u.reset_lockout_until with
  | some t =>
    if now < t then (u, some (.rateLimit ((t - now) / 60)))
    else
      let attempts := nextResetAttempts u now
      let u1 := { u with reset_attempts := attempts, last_reset_attempt := some now }
      if attempts > MAX_RESET_ATTEMPTS then
        let lm := lockoutMinutes attempts
        ({ u1 with reset_lockout_until := some (now + lm * 60) }, some (.rateLimit lm))
      else (u1, none)
  | none =>
    let attempts := nextResetAttempts u now
    let u1 := { u with reset_attempts := attempts, last_reset_attempt := some now }
    if attempts > MAX_RESET_ATTEMPTS then
      let lm := lockoutMinutes attempts
      ({ u1 with reset_lockout_until := some (now + lm * 60) }, some (.rateLimit lm))
    else (u1, none)

/-- Embeds `service.request_password_reset`: returns the database state after
the call, the raised exception if any, and the boolean result (False
when the email matches no user; the outbound email delivery is an
external collaborator, modelled as succeeding). -/
def request_password_reset (db : AuthDB) (email : String) (now : Int) :
    AuthDB × Option AuthError × Bool :=
  match findUserByEmail db email with
  | none => (db, none, false)
  | some user =>
    let (u1, err) := _check_reset_rate_limits user now
    let db1 := putUser db u1
    match err with
    | some e => (db1, some e, false)
    | none =>
      let db2 := invalidate_previous_tokens db1 u1.id "password_reset" now
      (db2, none, true)

/-- Embeds `service._validate_reset_token` (with the `jose` exceptions translated
by the surrounding `try` of `service.reset_password`): decode, check the
`type` and `sub` claims, look the user up, and reject a token whose hash
is already in the used-token ledger. -/
def _validate_reset_token (db : AuthDB) (token : Token) (now : Int) :
    Except AuthError User :=
  match jwtDecode token now with
  | .error .expired => .error .tokenExpired
  | .error .invalid => .error (.invalidToken false)
  | .ok payload =>
    if payload.type != some "password_reset" then .error (.invalidToken false)
    else
      match payload.sub with
      | none => .error (.invalidToken false)
      | some username =>
        match findUserByUsername db username with
        | none => .error .userNotFound
        | some user =>
          if hashInLedger db (tokenHash token) then .error (.invalidToken true)
          else .ok user

/-- Modelled from the spec: the external strength validator
`src.validators.password.validate_password` is absent from the snapshot
(only its callers are under `src/`).  The spec describes it as
"length ≥ 8, complexity rules external validator"; the in-repo
`src/auth/utils.py` variant also caps the length at 100.  Returns
`(is_valid, error_message)`. -/
def validate_password (password : String) : Bool × String :=
  if password.length < 8 then (false, "La contrasena debe tener al menos 8 caracteres")
  else if password.length > 100 then (false, "La contrasena es demasiado larga")
  else (true, "")

/-- Embeds `service._validate_password_requirements`. -/
def _validate_password_requirements (new_password : String) : Option AuthError :=
  if new_password.length < 8 then
    some (.invalidPassword "La contrasena debe tener al menos 8 caracteres")
  else
    match validate_password new_password with
    | (true, _) => none
    | (false, msg) => some (.invalidPassword msg)

/-- Insertion step for ordering history rows by `created_at` descending. -/
def insertByCreatedAtDesc (r : PasswordHistoryRow) :
    List PasswordHistoryRow → List PasswordHistoryRow
  | [] => [r]
  | x :: xs =>
    if x.created_at < r.created_at then r :: x :: xs
    else x :: insertByCreatedAtDesc r xs

/-- Embeds `ORDER BY created_at DESC` on history rows. -/
def sortByCreatedAtDesc : List PasswordHistoryRow → List PasswordHistoryRow
  | [] => []
  | x :: xs => insertByCreatedAtDesc x (sortByCreatedAtDesc xs)

/-- The query shared by `service.update_user` and
`service._check_password_history`: the user's history rows ordered by
`created_at` descending, limited to `PASSWORD_HISTORY_SIZE`. -/
def recentPasswords (db : AuthDB) (user_id : Nat) : List PasswordHistoryRow :=
  (sortByCreatedAtDesc (db.password_history.filter (fun r => r.user_id == user_id))).take
    PASSWORD_HISTORY_SIZE

/-- Embeds `service._check_password_history`: `PasswordHistoryException` when the
candidate verifies against any recent history entry. -/
def _check_password_history (db : AuthDB) (user : User) (new_password : String) :
    Option AuthError :=
  if (recentPasswords db user.id).any
      (fun r => verify_password new_password r.hashed_password) then
    some .passwordHistory
  else none

/-- Embeds `service._update_user_password`: set the new hash, append the history
row, insert the used-token row, zero the rate-limit counters, and commit
once. -/
def _update_user_password (db : AuthDB) (user : User) (new_password : String)
    (token : Token) (now : Int) : AuthDB :=
  let hashed := get_password_hash new_password
  let u1 := { user with hashed_password := hashed, reset_attempts := 0,
                        reset_lockout_until := none }
  { users := db.users.map (fun v => if v.id == user.id then u1 else v),
    password_history := db.password_history ++
      [{ user_id := user.id, hashed_password := hashed, created_at := now }],
    used_tokens := db.used_tokens ++
      [{ token_hash := tokenHash token, token_type := "password_reset",
         user_id := user.id, used_at := now }] }

/-- Embeds `service.reset_password`: token gate, strength gate, history gate,
then the single-commit update; on any raised exception the session is
left uncommitted, so the database is unchanged. -/
def reset_password (db : AuthDB) (token : Token) (new_password : String)
    (now : Int) : AuthDB × Option AuthError :=
  match _validate_reset_token db token now with
  | .error e => (db, some e)
  | .ok user =>
    match _validate_password_requirements new_password with
    | some e => (db, some e)
    | none =>
      match _check_password_history db user new_password with
      | some e => (db, some e)
      | none => (_update_user_password db user new_password token now, none)

/-- Embeds `src/auth/schemas.py` — `UserUpdate`.  `model_dump(exclude_unset=True)`
drops the unset fields, so `none` models "absent from the payload" (for
these all-optional fields an explicit JSON `null` and an absent field
coincide in effect). -/
structure UserUpdate where
  email : Option String := none
  username : Option String := none
  full_name : Option String := none
  current_password : Option String := none
  new_password : Option String := none
deriving Repr, DecidableEq

/-- The `setattr` loop of `service.update_user` lines 137-138 applied to
the remaining payload keys.  (`current_password`, when present, is set as
a transient attribute on the ORM object; it is not a mapped column, so it
never reaches the `users` table.) -/
def applyProfileFields (u : User) (upd : UserUpdate) : User :=
  { u with
    email := upd.email.getD u.email,
    username := upd.username.getD u.username,
    full_name := match upd.full_name with
      | some f => some f
      | none => u.full_name }

/-- Embeds `service.update_user`: profile update, with the password-change branch
guarded by the current-password check and the password-history check.
Returns the database state after the call and the raised exception, if
any (an exception leaves the session uncommitted). -/
def update_user (db : AuthDB) (user_id : Nat) (upd : UserUpdate)
    (current_password : Option String) (now : Int) : AuthDB × Option AuthError :=
  match db.users.find? (fun u => u.id == user_id) with
  | none => (db, some .userNotFound)
  | some user =>
    match upd.new_password with
    | some new_password =>
      let credsOk := match current_password with
        | none => false
        | some cp => verify_password cp user.hashed_password
      if !credsOk then (db, some .invalidCredentials)
      else
        let hashed := get_password_hash new_password
        if (recentPasswords db user_id).any
            (fun r => verify_password new_password r.hashed_password) then
          (db, some .passwordHistory)
        else
          let u1 := { user with hashed_password := hashed }
          let u2 := applyProfileFields u1 upd
          ({ users := db.users.map (fun v => if v.id == user_id then u2 else v),
             password_history := db.password_history ++
               [{ user_id := user_id, hashed_password := hashed, created_at := now }],
             used_tokens := db.used_tokens }, none)
    | none =>
      let u2 := applyProfileFields user upd
      ({ db with
         users := db.users.map (fun v => if v.id == user_id then u2 else v) }, none)

end GardenAuth

namespace GardenAuthRouter

open GardenAuth

/-- Embeds `router.login_for_access_token` (`POST /auth/token`): the HTTP status
the handler responds with.  The handler rejects missing fields with 400
and raises `HTTPException(status_code=400, detail="Credenciales
inválidas")` when `service.authenticate_user` returns no user. -/
def login_for_access_token (db : AuthDB) (username_or_email password : String) : Nat :=
  if username_or_email == "" || password == "" then 400
  else
    match authenticate_user db username_or_email password with
    | none => 400
    | some _ => 200

/-- Embeds `router.reset_password` (`POST /auth/password-reset`): the handler's
own inline pipeline (decode, claim checks, user lookup by the `sub`
claim against `User.id`, used-token check, strength validation, then the
update).  Returns the database state after the call and the HTTP status. -/
def reset_password (db : AuthDB) (token : Token) (new_password : String)
    (now : Int) : AuthDB × Nat :=
  match jwtDecode token now with
  | .error _ => (db, 400)
  | .ok payload =>
    match payload.sub with
    | none => (db, 400)
    | some user_id_str =>
      if user_id_str == "" || payload.type != some "password_reset" then (db, 400)
      else
        match db.users.find? (fun u => toString u.id == user_id_str) with
        | none => (db, 400)
        | some user =>
          if hashInLedger db (tokenHash token) then (db, 400)
          else
            match validate_password new_password with
            | (false, _) => (db, 400)
            | (true, _) =>
              let hashed := get_password_hash new_password
              let u1 := { user with hashed_password := hashed, reset_attempts := 0,
                                    reset_lockout_until := none }
              ({ users := db.users.map (fun v => if v.id == user.id then u1 else v),
                 password_history := db.password_history ++
                   [{ user_id := user.id, hashed_password := hashed, created_at := now }],
                 used_tokens := db.used_tokens ++
                   [{ token_hash := tokenHash token, token_type := "password_reset",
                      user_id := user.id, used_at := now }] }, 200)

end GardenAuthRouter

namespace GardenAuth

/-! Concrete fixtures used to evaluate the embedded code on the scenarios
the claims talk about. -/

/-- A registered user whose current password is `CurrentPassword456!`. -/
def uAlice : User :=
  { id := 1, email := "a@x.com", username := "alice",
    hashed_password := get_password_hash "CurrentPassword456!" }

/-- A database holding `uAlice` and `uAlice`'s password history (an older
password and the current one). -/
def dbAlice : AuthDB :=
  { users := [uAlice],
    password_history :=
      [{ user_id := 1, hashed_password := get_password_hash "OldPassword123!",
         created_at := 400 },
       { user_id := 1, hashed_password := get_password_hash "CurrentPassword456!",
         created_at := 500 }],
    used_tokens := [] }

/-- A reset token for `alice` issued at time 1000 (so `exp = 1060` under
the 1-minute default expiry). -/
def tAlice : Token := create_password_reset_token "alice" 1000

/-- The database after a second reset request for `uAlice` arrives at
time 1010 — the service writes the invalidation marker for the earlier
token. -/
def dbAliceSuperseded : AuthDB := (request_password_reset dbAlice "a@x.com" 1010).1

/-- The database after `tAlice` is successfully redeemed at time 1030. -/
def dbAliceUsed : AuthDB := (reset_password dbAlice tAlice "FreshPassword123!" 1030).1

/-- A reset token carrying `uAlice`'s id (the way the router's own
`POST /auth/password-reset` pipeline addresses users), issued at 1000. -/
def tAliceById : Token :=
  .signed { sub := some "1", type := some "password_reset", exp := some 1060 }

/-- An inactive user with a valid stored password. -/
def uIna : User :=
  { id := 2, email := "i@x.com", username := "ina",
    hashed_password := get_password_hash "Secret123!", is_active := false }

/-- A database whose only user is inactive. -/
def dbIna : AuthDB := { users := [uIna], password_history := [], used_tokens := [] }

/-- Fixture: `uAlice` under an active lockout until time 2000. -/
def uLocked : User :=
  { uAlice with reset_attempts := 4, last_reset_attempt := some 900,
                reset_lockout_until := some 2000 }

/-- Fixture: `uAlice` at the attempt threshold, last attempt 50 seconds ago. -/
def uMaxed : User :=
  { uAlice with reset_attempts := 4, last_reset_attempt := some 950 }

/-- Fixture: `dbAlice` with the user at the attempt threshold. -/
def dbMaxed : AuthDB := { dbAlice with users := [uMaxed] }

/-- An empty database. -/
def dbEmpty : AuthDB := { users := [], password_history := [], used_tokens := [] }

/-! Theorems. -/

/-- The progressive lockout duration is always at least one minute. -/
theorem lockoutMinutes_pos (attempts : Nat) : 0 < lockoutMinutes attempts := by
  unfold lockoutMinutes
  refine Nat.lt_min.mpr ⟨?_, by decide⟩
  exact Nat.mul_pos (by decide) (pow_pos (by decide) _)

/-- C10: while `reset_lockout_until` is set and strictly in the future,
`_check_reset_rate_limits` raises `RateLimitException` (whose message
carries the remaining whole minutes) and leaves the user row exactly as
it was: `reset_attempts`, `last_reset_attempt` and `reset_lockout_until`
all keep their prior values. -/
theorem claim_C10 (u : User) (now t : Int)
    (hl : u.reset_lockout_until = some t) (hf : now < t) :
    _check_reset_rate_limits u now = (u, some (.rateLimit ((t - now) / 60))) := by
  simp [_check_reset_rate_limits, hl, hf]

/-- C10, witness: `uLocked` is locked out until 2000; the check at time
1000 raises with 16 remaining minutes and changes nothing. -/
theorem claim_C10_witness :
    _check_reset_rate_limits uLocked 1000 = (uLocked, some (.rateLimit 16)) :=
  claim_C10 uLocked 1000 2000 rfl (by norm_num)

/-- C4: a reset request by an existing user who is not currently locked
out and whose updated attempt counter (incremented when the previous
attempt is under one hour old, restarted at 1 otherwise) exceeds
`MAX_RESET_ATTEMPTS` fails with `RateLimitException`, committing
`reset_lockout_until := now + min(BASE_LOCKOUT_MINUTES *
2^(attempts - MAX_RESET_ATTEMPTS - 1), MAX_LOCKOUT_MINUTES)` minutes —
a timestamp strictly in the future. -/
theorem claim_C4 (db : AuthDB) (email : String) (now : Int) (u : User)
    (hu : findUserByEmail db email = some u)
    (hlock : ∀ t, u.reset_lockout_until = some t → t ≤ now)
    (hex : nextResetAttempts u now > MAX_RESET_ATTEMPTS) :
    request_password_reset db email now =
      (putUser db
        { u with reset_attempts := nextResetAttempts u now,
                 last_reset_attempt := some now,
                 reset_lockout_until :=
                   some (now + lockoutMinutes (nextResetAttempts u now) * 60) },
       some (.rateLimit (lockoutMinutes (nextResetAttempts u now))), false)
    ∧ now < now + lockoutMinutes (nextResetAttempts u now) * 60 := by
  constructor
  · rcases h : u.reset_lockout_until with _ | t
    · simp [request_password_reset, hu, _check_reset_rate_limits, h, hex]
    · have hnt : ¬ now < t := not_lt.mpr (hlock t h)
      simp [request_password_reset, hu, _check_reset_rate_limits, h, hnt, hex]
  · have h60 : (0 : Int) < (lockoutMinutes (nextResetAttempts u now) : Int) * 60 := by
      have := lockoutMinutes_pos (nextResetAttempts u now)
      positivity
    linarith

/-- C9: a profile update whose payload carries no `new_password` leaves
every user's `hashed_password` untouched and appends no
`PasswordHistory` row, whatever other fields it updates (primary keys
are unique, as the `users` table enforces). -/
theorem claim_C9 (db : AuthDB) (user_id : Nat) (upd : UserUpdate)
    (cp : Option String) (now : Int)
    (hids : (db.users.map User.id).Nodup)
    (hnp : upd.new_password = none) :
    (update_user db user_id upd cp now).1.password_history = db.password_history ∧
    (update_user db user_id upd cp now).1.users.map (fun u => (u.id, u.hashed_password)) =
      db.users.map (fun u => (u.id, u.hashed_password)) := by
  rcases hfind : db.users.find? (fun v => v.id == user_id) with _ | u
  · simp [update_user, hfind]
  · have hmem : u ∈ db.users := List.mem_of_find?_eq_some hfind
    have hid : u.id = user_id := by
      have := List.find?_some hfind
      simpa using this
    constructor
    · simp [update_user, hfind, hnp]
    · simp only [update_user, hfind, hnp]
      rw [List.map_map]
      apply List.map_congr_left
      intro v hv
      by_cases hvi : v.id = user_id
      · have hvu : v = u := by
          apply List.inj_on_of_nodup_map hids hv hmem
          rw [hvi, hid]
        subst hvu
        simp [hvi, applyProfileFields, hid]
      · simp [Function.comp, hvi]

/-- C9, witness: updating only `full_name` changes neither the stored
hash nor the history log. -/
theorem claim_C9_witness :
    (update_user dbAlice 1 { full_name := some "Alice A." } none 600).1.password_history
        = dbAlice.password_history ∧
    (update_user dbAlice 1 { full_name := some "Alice A." } none 600).1.users.map
        (fun u => (u.id, u.hashed_password)) =
      dbAlice.users.map (fun u => (u.id, u.hashed_password)) :=
  claim_C9 dbAlice 1 { full_name := some "Alice A." } none 600 (by decide) rfl

/-- C8: `POST /auth/token` with credentials that authenticate no user
responds with HTTP 400 (`detail="Credenciales inválidas"`), not the 401
that the spec, the route's own `responses` declaration and the repo's
test `test_login_invalid_credentials` prescribe. -/
theorem claim_C8_code_bug :
    authenticate_user dbAlice "a@x.com" "WrongPassword123!" = none ∧
    GardenAuthRouter.login_for_access_token dbAlice "a@x.com" "WrongPassword123!" = 400 :=
  ⟨rfl, rfl⟩

/-- C7, counterexample: an inactive user's correct credentials match no
active user, yet `authenticate_user` returns that user rather than
`none` — the function never consults `is_active`. -/
theorem claim_C7_counterexample :
    authenticate_user dbIna "i@x.com" "Secret123!" = some uIna ∧
    dbIna.users.all (fun u => !u.is_active) = true :=
  ⟨rfl, rfl⟩

/-- C7, amended: for every stored user (active or not) whose email and
password match, `authenticate_user` returns that user; for every other
pair it returns `none` (emails are unique, as the `users` table
enforces). -/
theorem claim_C7_amended (db : AuthDB) (e p : String)
    (huniq : ∀ u ∈ db.users, ∀ v ∈ db.users, u.email = v.email → u = v) :
    (∀ u ∈ db.users, u.email = e →
      ((verify_password p u.hashed_password = true →
          authenticate_user db e p = some u) ∧
       (verify_password p u.hashed_password = false →
          authenticate_user db e p = none)))
    ∧ ((∀ u ∈ db.users, u.email ≠ e) → authenticate_user db e p = none) := by
  constructor
  · intro u hu he
    have hsome : (db.users.find? (fun v => v.email == e)).isSome := by
      apply List.find?_isSome.mpr
      exact ⟨u, hu, by simp [he]⟩
    obtain ⟨w, hw⟩ := Option.isSome_iff_exists.mp hsome
    have hwmem : w ∈ db.users := List.mem_of_find?_eq_some hw
    have hwe : w.email = e := by
      have := List.find?_some hw
      simpa using this
    have hwu : w = u := huniq w hwmem u hu (by rw [hwe, he])
    subst hwu
    constructor
    · intro hv
      simp [authenticate_user, findUserByEmail, hw, hv]
    · intro hv
      simp [authenticate_user, findUserByEmail, hw, hv]
  · intro hno
    have hnone : db.users.find? (fun v => v.email == e) = none := by
      apply List.find?_eq_none.mpr
      intro x hx
      simpa using hno x hx
    simp [authenticate_user, findUserByEmail, hnone]

/-- C7, witness: `uAlice`'s correct credentials authenticate as `uAlice`. -/
theorem claim_C7_amended_witness :
    authenticate_user dbAlice "a@x.com" "CurrentPassword456!" = some uAlice :=
  ((claim_C7_amended dbAlice "a@x.com" "CurrentPassword456!" (by decide)).1
    uAlice (by decide) rfl).1 rfl

/-- C5, counterexample: for the `password_reset` type `is_token_valid`
returns `true` before ever decoding, so an undecodable token with a
clean ledger is reported valid — refuting the claim's unconditional
"any decode error ⇒ invalid". -/
theorem claim_C5_counterexample :
    jwtDecode (Token.malformed "garbage") 0 = Except.error JwtError.invalid ∧
    is_token_valid dbEmpty (Token.malformed "garbage") 1 "password_reset" 0 = true :=
  ⟨rfl, rfl⟩

/-- C5, amended: `is_token_valid` returns false whenever the token's
SHA-256 is in the ledger; for every non-`password_reset` type it
moreover returns false when decoding fails, and false when the decoded
payload's estimated issue time (`iat`, else `exp` minus the configured
reset-token duration) predates an invalidation marker of that type for
that user. -/
theorem claim_C5_amended (db : AuthDB) (t : Token) (uid : Nat) (ty : String)
    (now : Int) :
    (hashInLedger db (tokenHash t) = true → is_token_valid db t uid ty now = false)
    ∧ (ty ≠ "password_reset" →
        (((∃ er, jwtDecode t now = .error er) →
            is_token_valid db t uid ty now = false)
         ∧ (∀ p est, jwtDecode t now = .ok p → estimatedIat p ty = some est →
              db.used_tokens.any (fun r => r.user_id == uid &&
                r.token_type == "invalidation_" ++ ty && decide (est < r.used_at)) = true →
              is_token_valid db t uid ty now = false))) := by
  constructor
  · intro h
    simp [is_token_valid, h]
  · intro hty
    have htyb : (ty == "password_reset") = false := beq_eq_false_iff_ne.mpr hty
    by_cases hL : hashInLedger db (tokenHash t)
    · exact ⟨fun _ => by simp [is_token_valid, hL], fun _ _ _ _ _ => by simp [is_token_valid, hL]⟩
    · constructor
      · rintro ⟨er, her⟩
        simp [is_token_valid, hL, htyb, her]
      · intro p est hp hest hany
        simp [is_token_valid, hL, htyb, hp, hest, hany]

/-- C5, witness for the amended claim: a used token is invalid. -/
theorem claim_C5_amended_witness :
    is_token_valid dbAliceUsed tAlice 1 "password_reset" 1040 = false :=
  (claim_C5_amended dbAliceUsed tAlice 1 "password_reset" 1040).1 rfl

/-- C1: after a second reset token is issued at time 1010 (writing the
invalidation marker), the first token — issued at 1000, unexpired and
unused at 1030 — is still redeemed successfully by the complete-reset
operation: neither `_validate_reset_token` nor the router pipeline ever
consults invalidation markers (`is_token_valid` returns `true` for the
`password_reset` type before the marker check), contradicting
`is_token_valid`'s own docstring and the dead "Enlace reemplazado"
branch of `validate_password_reset_form_token`. -/
theorem claim_C1_code_bug :
    (request_password_reset dbAlice "a@x.com" 1010).2 = (none, true) ∧
    dbAliceSuperseded.used_tokens.any (fun r =>
      r.token_type == "invalidation_password_reset" && r.user_id == 1 &&
      decide ((1000 : Int) < r.used_at)) = true ∧
    jwtDecode tAlice 1030 =
      Except.ok { sub := some "alice", type := some "password_reset",
                  exp := some 1060 } ∧
    hashInLedger dbAliceSuperseded (tokenHash tAlice) = false ∧
    (reset_password dbAliceSuperseded tAlice "FreshPassword123!" 1030).2 = none ∧
    (reset_password dbAliceSuperseded tAlice "FreshPassword123!" 1030).1.users.map
      User.hashed_password = [get_password_hash "FreshPassword123!"] :=
  ⟨rfl, rfl, rfl, rfl, rfl, rfl⟩

/-- The profile-update path does honour the claim of C2: a new password
verifying against a recent history entry is rejected with
`PasswordHistoryException` and nothing is committed. -/
theorem update_user_rejects_recent_password (db : AuthDB) (user_id : Nat)
    (upd : UserUpdate) (cp : String) (now : Int) (u : User) (np : String)
    (hfind : db.users.find? (fun v => v.id == user_id) = some u)
    (hnp : upd.new_password = some np)
    (hcp : verify_password cp u.hashed_password = true)
    (hhist : (recentPasswords db user_id).any
      (fun r => verify_password np r.hashed_password) = true) :
    update_user db user_id upd (some cp) now = (db, some .passwordHistory) := by
  simp [update_user, hfind, hnp, hcp, hhist]

/-- The service-layer reset path also honours the claim of C2 (the
history gate sits between token validation and the update). -/
theorem service_reset_rejects_recent_password (db : AuthDB) (t : Token)
    (np : String) (now : Int) (u : User)
    (hv : _validate_reset_token db t now = .ok u)
    (hreq : _validate_password_requirements np = none)
    (hhist : (recentPasswords db u.id).any
      (fun r => verify_password np r.hashed_password) = true) :
    reset_password db t np now = (db, some .passwordHistory) := by
  simp [reset_password, hv, hreq, _check_password_history, hhist]

/-- C2: the HTTP reset path (`router.reset_password`, the endpoint's own
inline pipeline) never queries `PasswordHistory`: a candidate that
verifies against a recent history entry is accepted with 200 and
overwrites the stored hash, contradicting the repo's own test
`test_password_reset_history_constraint` (which expects 400,
"utilizadas anteriormente").  The profile-update path and the
service-layer reset function do reject such candidates
(`update_user_rejects_recent_password`,
`service_reset_rejects_recent_password`). -/
theorem claim_C2_code_bug :
    (recentPasswords dbAlice 1).any
      (fun r => verify_password "OldPassword123!" r.hashed_password) = true ∧
    (GardenAuthRouter.reset_password dbAlice tAliceById "OldPassword123!" 1030).2 = 200 ∧
    (GardenAuthRouter.reset_password dbAlice tAliceById "OldPassword123!" 1030).1.users.map
      User.hashed_password = [get_password_hash "OldPassword123!"] :=
  ⟨rfl, rfl, rfl⟩

/-- C4, witness: `uMaxed` has 4 prior attempts, the last one 50 seconds
ago; the request at time 1000 is the fifth within the hour, exceeds
`MAX_RESET_ATTEMPTS = 4`, and locks the account for
`min(5 * 2^0, 60) = 5` minutes. -/
theorem claim_C4_witness :
    request_password_reset dbMaxed "a@x.com" 1000 =
      (putUser dbMaxed
        { uMaxed with reset_attempts := 5, last_reset_attempt := some 1000,
                      reset_lockout_until := some 1300 },
       some (.rateLimit 5), false)
    ∧ (1000 : Int) < 1300 := by
  have h := claim_C4 dbMaxed "a@x.com" 1000 uMaxed rfl
    (by intro t ht; simp [uMaxed, uAlice] at ht) (by decide)
  simpa [nextResetAttempts, uMaxed, uAlice, lockoutMinutes,
    MAX_RESET_ATTEMPTS, BASE_LOCKOUT_MINUTES, MAX_LOCKOUT_MINUTES] using h

/-- Inversion of a successful `_validate_reset_token`: the token decoded,
its claims checked out, the user was found, and its hash was not in the
used-token ledger. -/
theorem validate_reset_token_ok_inv (db : AuthDB) (t : Token) (now : Int) (u : User)
    (hv : _validate_reset_token db t now = .ok u) :
    ∃ q, jwtDecode t now = .ok q ∧ q.type = some "password_reset" ∧
      ∃ name, q.sub = some name ∧ findUserByUsername db name = some u ∧
        hashInLedger db (tokenHash t) = false := by
  unfold _validate_reset_token at hv
  rcases hd : jwtDecode t now with er | q
  · rw [hd] at hv
    cases er <;> simp at hv
  · rw [hd] at hv
    dsimp only at hv
    by_cases htype : q.type = some "password_reset"
    · rw [show (q.type != some "password_reset") = false by simp [htype]] at hv
      simp only [Bool.false_eq_true, if_false] at hv
      rcases hsub : q.sub with _ | name
      · rw [hsub] at hv
        simp at hv
      · rw [hsub] at hv
        dsimp only at hv
        rcases hfind : findUserByUsername db name with _ | w
        · rw [hfind] at hv
          simp at hv
        · rw [hfind] at hv
          dsimp only at hv
          by_cases hL : hashInLedger db (tokenHash t)
          · simp [hL] at hv
          · simp only [hL, Bool.false_eq_true, if_false, Except.ok.injEq] at hv
            subst hv
            exact ⟨q, rfl, htype, name, hsub, hfind, by simpa using hL⟩
    · rw [show (q.type != some "password_reset") = true by
        simpa [bne_iff_ne] using htype] at hv
      simp at hv

/-- Inversion of a successful `reset_password`: every gate passed and the
final state is the single-commit update of `_update_user_password`. -/
theorem reset_password_ok_inv (db db' : AuthDB) (t : Token) (p : String) (now : Int)
    (hs : reset_password db t p now = (db', none)) :
    ∃ u, _validate_reset_token db t now = .ok u ∧
      db' = _update_user_password db u p t now := by
  unfold reset_password at hs
  rcases hv : _validate_reset_token db t now with e | u
  · rw [hv] at hs
    simp at hs
  · rw [hv] at hs
    dsimp only at hs
    rcases hr : _validate_password_requirements p with _ | e
    · rw [hr] at hs
      dsimp only at hs
      rcases hh : _check_password_history db u p with _ | e
      · rw [hh] at hs
        simp only [Prod.mk.injEq] at hs
        exact ⟨u, rfl, hs.1.symm⟩
      · rw [hh] at hs
        simp at hs
    · rw [hr] at hs
      simp at hs

/-- C6: the complete-reset operation is all-or-nothing.  If any gate
fails (bad or expired token, unknown user, token already used, weak
password, or reused password) the database — users (hence
`hashed_password` and the reset counters), `PasswordHistory` and
`UsedToken` — is exactly the input database; on success the password
update, the history append, the used-token insertion and the counter
reset all appear together in the one resulting state. -/
theorem claim_C6 (db : AuthDB) (t : Token) (p : String) (now : Int) :
    ((reset_password db t p now).2.isSome = true → (reset_password db t p now).1 = db)
    ∧ ((reset_password db t p now).2 = none →
        ∃ u, _validate_reset_token db t now = .ok u ∧
          (reset_password db t p now).1 =
            { users := db.users.map (fun v => if v.id == u.id then
                { u with hashed_password := get_password_hash p,
                         reset_attempts := 0, reset_lockout_until := none } else v),
              password_history := db.password_history ++
                [{ user_id := u.id, hashed_password := get_password_hash p,
                   created_at := now }],
              used_tokens := db.used_tokens ++
                [{ token_hash := tokenHash t, token_type := "password_reset",
                   user_id := u.id, used_at := now }] }) := by
  constructor
  · intro hsome
    rcases hv : _validate_reset_token db t now with e | u
    · simp [reset_password, hv]
    · rcases hr : _validate_password_requirements p with _ | e
      · rcases hh : _check_password_history db u p with _ | e
        · simp [reset_password, hv, hr, hh] at hsome
        · simp [reset_password, hv, hr, hh]
      · simp [reset_password, hv, hr]
  · intro hnone
    have hs : reset_password db t p now = ((reset_password db t p now).1, none) :=
      Prod.ext_iff.mpr ⟨rfl, hnone⟩
    obtain ⟨u, hv, hdb⟩ := reset_password_ok_inv db _ t p now hs
    exact ⟨u, hv, by rw [hdb]; simp [_update_user_password]⟩

/-- C6, witness: a weak password fails the strength gate and the
database is returned unchanged. -/
theorem claim_C6_witness :
    (reset_password dbAlice tAlice "short" 1030).1 = dbAlice :=
  (claim_C6 dbAlice tAlice "short" 1030).1 rfl

/-- C3, counterexample: once the 1-minute token has expired, re-presenting
a consumed token fails with `TokenExpiredException` (the decode runs
before the used-token check), not with the "already used"
`InvalidTokenException` the claim promises for every later attempt. -/
theorem claim_C3_counterexample :
    hashInLedger dbAliceUsed (tokenHash tAlice) = true ∧
    reset_password dbAliceUsed tAlice "AnotherPassword789!" 1070 =
      (dbAliceUsed, some AuthError.tokenExpired) ∧
    AuthError.tokenExpired ≠ AuthError.invalidToken true :=
  ⟨rfl, rfl, by decide⟩

/-- C3, amended: a successful redemption records the token's SHA-256 in
the `UsedToken` ledger, and every later redemption attempt presenting
the identical token string fails; when the token still decodes (is
unexpired) at that attempt, it fails with `InvalidTokenException`
reporting that the link was already used, leaving the database
unchanged. -/
theorem claim_C3_amended (db db' : AuthDB) (t : Token) (p : String) (now : Int)
    (hs : reset_password db t p now = (db', none)) :
    hashInLedger db' (tokenHash t) = true ∧
    (∀ now' p', (reset_password db' t p' now').2.isSome = true) ∧
    ∀ now' p', (∃ q, jwtDecode t now' = Except.ok q) →
      reset_password db' t p' now' = (db', some (.invalidToken true)) := by
  obtain ⟨u, hv, hdb⟩ := reset_password_ok_inv db db' t p now hs
  obtain ⟨q, hd, htype, name, hsub, hfind, hL⟩ :=
    validate_reset_token_ok_inv db t now u hv
  have hused : hashInLedger db' (tokenHash t) = true := by
    rw [hdb]
    simp [_update_user_password, hashInLedger]
  have hstrong : ∀ now' p', (∃ q, jwtDecode t now' = Except.ok q) →
      reset_password db' t p' now' = (db', some (.invalidToken true)) := by
    rintro now' p' ⟨q', hq'⟩
    -- a signed token decodes to its own payload at any time it decodes at all
    have hqq : q' = q := by
      cases t with
      | malformed raw => simp [jwtDecode] at hq'
      | signed pl =>
        have h1 : pl = q := by
          rcases he : pl.exp with _ | e
          · simpa [jwtDecode, he] using hd
          · rw [jwtDecode, he] at hd
            by_cases hlt : e < now
            · simp [hlt] at hd
            · simpa [hlt] using hd
        have h2 : pl = q' := by
          rcases he : pl.exp with _ | e
          · simpa [jwtDecode, he] using hq'
          · rw [jwtDecode, he] at hq'
            by_cases hlt : e < now'
            · simp [hlt] at hq'
            · simpa [hlt] using hq'
        rw [← h1, ← h2]
    subst hqq
    -- the user looked up by the token's subject is still present after the update
    have humem : u ∈ db.users := List.mem_of_find?_eq_some hfind
    have huname : u.username = name := by
      have := List.find?_some hfind
      simpa using this
    have hfind' : ∃ w, findUserByUsername db' name = some w := by
      have hmem' : ({ u with hashed_password := get_password_hash p,
                              reset_attempts := 0,
                              reset_lockout_until := none } : User) ∈ db'.users := by
        rw [hdb]
        simp only [_update_user_password]
        have := List.mem_map_of_mem
          (fun v => if v.id == u.id then
            { u with hashed_password := get_password_hash p,
                     reset_attempts := 0, reset_lockout_until := none } else v) humem
        simpa using this
      have : (db'.users.find? (fun v => v.username == name)).isSome :=
        List.find?_isSome.mpr ⟨_, hmem', by simpa using huname⟩
      exact Option.isSome_iff_exists.mp this
    obtain ⟨w, hw⟩ := hfind'
    have hvalid' : _validate_reset_token db' t now' = .error (.invalidToken true) := by
      unfold _validate_reset_token
      rw [hq']
      simp [htype, hsub, findUserByUsername] at hw ⊢
      rw [hw]
      simp [hused]
    simp [reset_password, hvalid']
  refine ⟨hused, ?_, hstrong⟩
  intro now' p'
  rcases hq : jwtDecode t now' with er | q'
  · cases er with
    | expired =>
      have hv' : _validate_reset_token db' t now' = Except.error AuthError.tokenExpired := by
        simp [_validate_reset_token, hq]
      simp [reset_password, hv']
    | invalid =>
      have hv' : _validate_reset_token db' t now' =
          Except.error (AuthError.invalidToken false) := by
        simp [_validate_reset_token, hq]
      simp [reset_password, hv']
  · rw [hstrong now' p' ⟨q', hq⟩]
    rfl

/-- C3, witness for the amended claim: redeem `tAlice` at 1030, then
re-present it at 1040 while it is still unexpired — the second attempt
fails with the "already used" error and changes nothing. -/
theorem claim_C3_amended_witness :
    reset_password dbAliceUsed tAlice "YetAnotherPassword1!" 1040 =
      (dbAliceUsed, some (.invalidToken true)) :=
  (claim_C3_amended dbAlice dbAliceUsed tAlice "FreshPassword123!" 1030 rfl).2.2
    1040 "YetAnotherPassword1!" ⟨_, rfl⟩

end GardenAuth
